import Mathlib

/-!
Verification of the expression-classification core of `src/app.js`
(emoji-smile-mirror): baseline calibration, delta computation, per-category
scoring, and threshold-based category selection.

Numeric scores are modelled with `ℚ`.  A JavaScript blendshape object
(`{ name: score, ... }`) is modelled as a total function from key names to
`Option ℚ`: a missing key reads as `none` (JS `undefined`).  The module-level
mutable `baseline` variable is modelled by explicit state passing of an
`Option Blend` (`none` = the uncalibrated `null` state).
-/

namespace EmojiMirror

/-- A blendshape vector: a JS object mapping channel names to scores.
`none` models an absent key (`undefined`). -/
def Blend : Type := String → Option ℚ

/-- `v[key] ?? 0`: read a channel, defaulting a missing key to `0`. -/
def blendGet (v : Blend) (key : String) : ℚ := (v key).getD 0

/-- The expression categories (keys of `EMOJI_SET`). -/
inductive Expression where
  | neutral | smile | surprise | frown | cheeky
  deriving DecidableEq, Repr

/-- The `EMOJI_SET` lookup table from `src/app.js`. -/
def EMOJI_SET : Expression → String
  | .neutral => "😐"
  | .smile => "🙂"
  | .surprise => "😮"
  | .frown => "😡"
  | .cheeky => "😜"

/-- The `EMOTION_THRESHOLDS` object from `src/app.js`.  It has exactly four
keys; reading any other key yields `undefined`, modelled as `none`. -/
def EMOTION_THRESHOLDS : Expression → Option ℚ
  | .smile => some 0.25
  | .surprise => some 0.28
  | .frown => some 0.2
  | .cheeky => some 0.22
  | .neutral => none

/-- One category entry of a MediaPipe blendshape result. -/
structure Category where
  categoryName : String
  score : ℚ

/-- The `blendshapes` argument of `blendMap`: an object carrying a
`categories` array (or `null`, modelled by wrapping in `Option`). -/
structure Blendshapes where
  categories : List Category

/-- `blendMap` from `src/app.js`: fold `blendshapes?.categories ?? []` into
an object, later entries overwriting earlier ones with the same name. -/
def blendMap (blendshapes : Option Blendshapes) : Blend :=
  ((blendshapes.map Blendshapes.categories).getD []).foldl
    (fun out cat => fun k => if k = cat.categoryName then some cat.score else out k)
    (fun _ => none)

/-- `calibrate` from `src/app.js`, as a state transition on the module-level
`baseline` variable: `if (!blend) return;` leaves the baseline unchanged,
otherwise `baseline = { ...blend }` replaces it with a copy of `blend`
(copying is the identity in this pure model). -/
def calibrate (baseline : Option Blend) (blend : Option Blend) : Option Blend :=
  match blend with
  | none => baseline
  | some v => some v

/-- The `expressionScores` object computed inside `pickEmoji`, as the ordered
list of its entries (`Object.entries` enumerates string keys in insertion
order).  `get` is the local delta closure `(blend[key] ?? 0) - (b[key] ?? 0)`.
In the source the `cheeky` entry adds `(get("tongueOut") ?? 0)`; since `get`
always returns a number, the `?? 0` is the identity. -/
def expressionScores (blend : Blend) (b : Blend) : List (Expression × ℚ) :=
  let get := fun key => blendGet blend key - blendGet b key
  [ (.smile, max (get "mouthSmileLeft") (get "mouthSmileRight")),
    (.surprise, get "jawOpen" * 0.9 + get "mouthPucker" * 0.4),
    (.frown, max (get "mouthFrownLeft") (get "mouthFrownRight")),
    (.cheeky, max (get "cheekPuffLeft") (get "cheekPuffRight") + get "tongueOut") ]

/-- The selection loop of `pickEmoji`: fold over the entries with mutable
`bestExpression`/`bestScore`, starting from `("neutral", 0.15)`.  When the
threshold lookup is `undefined` (`none`), the JS comparison
`score > undefined` is false and the entry is skipped. -/
def selectBest (scores : List (Expression × ℚ)) : Expression × ℚ :=
  scores.foldl
    (fun acc p =>
      match EMOTION_THRESHOLDS p.1 with
      | none => acc
      | some threshold => if p.2 > threshold ∧ p.2 > acc.2 then p else acc)
    (.neutral, 0.15)

/-- `pickEmoji` from `src/app.js`, split into its category-selection part:
`null` input short-circuits to `neutral`; otherwise `b = baseline || {}` and
the loop selects the best expression. -/
def pickExpression (baseline : Option Blend) (blend : Option Blend) : Expression :=
  match blend with
  | none => .neutral
  | some blend => (selectBest (expressionScores blend (baseline.getD (fun _ => none)))).1

/-- `pickEmoji` from `src/app.js`: the selected category rendered through the
`EMOJI_SET` table. -/
def pickEmoji (baseline : Option Blend) (blend : Option Blend) : String :=
  EMOJI_SET (pickExpression baseline blend)

/-! ### Spec-side definitions (for the refinement-style claims) -/

/-- The per-category score of the code, as a function of the category
(the entries of `expressionScores` keyed by category). -/
def scoreOf (blend : Blend) (b : Blend) : Expression → ℚ
  | .smile => max (blendGet blend "mouthSmileLeft" - blendGet b "mouthSmileLeft")
      (blendGet blend "mouthSmileRight" - blendGet b "mouthSmileRight")
  | .surprise => (blendGet blend "jawOpen" - blendGet b "jawOpen") * 0.9
      + (blendGet blend "mouthPucker" - blendGet b "mouthPucker") * 0.4
  | .frown => max (blendGet blend "mouthFrownLeft" - blendGet b "mouthFrownLeft")
      (blendGet blend "mouthFrownRight" - blendGet b "mouthFrownRight")
  | .cheeky => max (blendGet blend "cheekPuffLeft" - blendGet b "cheekPuffLeft")
      (blendGet blend "cheekPuffRight" - blendGet b "cheekPuffRight")
      + (blendGet blend "tongueOut" - blendGet b "tongueOut")
  | .neutral => 0

/-- The spec's per-category thresholds, total over the four scored
categories (smile 0.25, surprise 0.28, frown 0.20, cheeky 0.22). -/
def specThreshold : Expression → ℚ
  | .smile => 0.25
  | .surprise => 0.28
  | .frown => 0.20
  | .cheeky => 0.22
  | .neutral => 0

/-- The spec's selection algorithm, written from the spec's words: start with
`best = neutral`, `bestScore = 0.15`; visit smile, surprise, frown, cheeky in
that order; a category becomes the new best iff its score is strictly greater
than its threshold and strictly greater than the current `bestScore`. -/
def selectSpec (score : Expression → ℚ) : Expression :=
  let step := fun (acc : Expression × ℚ) (e : Expression) =>
    if score e > specThreshold e ∧ score e > acc.2 then (e, score e) else acc
  (step (step (step (step (.neutral, 0.15) .smile) .surprise) .frown) .cheeky).1

/-- The spec's delta function: `delta(key) = current[key]∨0 − baseline[key]∨0`. -/
def specDelta (current : Blend) (baseline : Blend) (key : String) : ℚ :=
  (current key).getD 0 - (baseline key).getD 0

/-- The all-zero baseline vector of the spec (`zeroVector`). -/
def zeroVector : Blend := fun _ => some 0

/-- Position of a category in the fixed iteration order
smile, surprise, frown, cheeky (neutral is never iterated). -/
def orderIdx : Expression → ℕ
  | .smile => 0
  | .surprise => 1
  | .frown => 2
  | .cheeky => 3
  | .neutral => 4

/-- A category qualifies (for a score table `s`) when its score is strictly
above its own threshold as looked up by the code; `neutral` has no threshold
entry and never qualifies (`score > undefined` is false in JS). -/
def qualScore (s : Expression → ℚ) (e : Expression) : Prop :=
  match EMOTION_THRESHOLDS e with
  | none => False
  | some t => s e > t

/-- `baseline || {}` from `pickEmoji`: the vector actually subtracted. -/
def baselineVec (baseline : Option Blend) : Blend :=
  baseline.getD (fun _ => none)

/-- The qualification predicate instantiated with the code's scores. -/
def qualifies (blend : Blend) (b : Blend) (e : Expression) : Prop :=
  qualScore (scoreOf blend b) e

/-- The selection fold written out over the four scores, for case analysis. -/
def select4 (s1 s2 s3 s4 : ℚ) : Expression × ℚ :=
  let a0 : Expression × ℚ := (.neutral, 0.15)
  let a1 := if s1 > 0.25 ∧ s1 > a0.2 then ((.smile : Expression), s1) else a0
  let a2 := if s2 > 0.28 ∧ s2 > a1.2 then ((.surprise : Expression), s2) else a1
  let a3 := if s3 > 0.2 ∧ s3 > a2.2 then ((.frown : Expression), s3) else a2
  if s4 > 0.22 ∧ s4 > a3.2 then ((.cheeky : Expression), s4) else a3

/-- Witness input: only `mouthSmileLeft` present, at `1/4`. -/
def witSmileLo : Blend := fun k => if k = "mouthSmileLeft" then some (1/4) else none

/-- Witness input: only `mouthSmileLeft` present, at `1/2`. -/
def witSmileHi : Blend := fun k => if k = "mouthSmileLeft" then some (1/2) else none

/-- The empty blendshape object `{}`. -/
def emptyBlend : Blend := fun _ => none

/-- Counterexample input for the tie-break claim: smile and frown scores tie
at `3/10` (both qualifying) while surprise scores `9/20` and wins. -/
def cexTie : Blend := fun k =>
  if k = "mouthSmileLeft" then some (3/10)
  else if k = "mouthFrownLeft" then some (3/10)
  else if k = "jawOpen" then some (1/2)
  else none

/-- Witness input for the amended tie-break claim (the spec's own concrete
case): `mouthSmileLeft = 0.40`, `jawOpen = 4/9`, so that the smile and
surprise scores are both exactly `2/5` and smile, first in order, wins. -/
def witTie : Blend := fun k =>
  if k = "mouthSmileLeft" then some (2/5)
  else if k = "jawOpen" then some (4/9)
  else none

/-- Witness baseline with a single non-negative channel. -/
def witBaseNN : Blend := fun k => if k = "jawOpen" then some (1/2) else none

/-! ### Basic lemmas -/

lemma qualScore_smile (s : Expression → ℚ) : qualScore s .smile ↔ s .smile > 0.25 :=
  Iff.rfl

lemma qualScore_surprise (s : Expression → ℚ) :
    qualScore s .surprise ↔ s .surprise > 0.28 :=
  Iff.rfl

lemma qualScore_frown (s : Expression → ℚ) : qualScore s .frown ↔ s .frown > 0.2 :=
  Iff.rfl

lemma qualScore_cheeky (s : Expression → ℚ) : qualScore s .cheeky ↔ s .cheeky > 0.22 :=
  Iff.rfl

lemma qualScore_neutral (s : Expression → ℚ) : ¬ qualScore s .neutral :=
  fun h => h

/-- The code's `expressionScores` list, entry by entry, is the score table
`scoreOf` paired with the categories in iteration order. -/
lemma expressionScores_eq (blend b : Blend) :
    expressionScores blend b =
      [(.smile, scoreOf blend b .smile), (.surprise, scoreOf blend b .surprise),
       (.frown, scoreOf blend b .frown), (.cheeky, scoreOf blend b .cheeky)] :=
  rfl

/-- Unfolding `pickExpression` on a non-null input. -/
lemma pickExpression_some (baseline : Option Blend) (blend : Blend) :
    pickExpression baseline (some blend) =
      (selectBest (expressionScores blend (baselineVec baseline))).1 :=
  rfl

/-- The selection fold over the four concrete entries is `select4`. -/
lemma selectBest_eq_select4 (s1 s2 s3 s4 : ℚ) :
    selectBest [(.smile, s1), (.surprise, s2), (.frown, s3), (.cheeky, s4)] =
      select4 s1 s2 s3 s4 :=
  rfl

/-- If every score is ≤ 0 the fold never updates and neutral remains. -/
lemma select4_all_low (s1 s2 s3 s4 : ℚ) (h1 : s1 ≤ 0) (h2 : s2 ≤ 0) (h3 : s3 ≤ 0)
    (h4 : s4 ≤ 0) :
    select4 s1 s2 s3 s4 = (.neutral, 0.15) := by
  dsimp only [select4]
  split_ifs <;> first | rfl | (exfalso; simp_all; linarith)

/-- The fold result is either the untouched initial pair or one of the four
entries, and in the latter case its score is strictly above the 0.15 floor. -/
lemma select4_floor (s1 s2 s3 s4 : ℚ) :
    select4 s1 s2 s3 s4 = (.neutral, 0.15) ∨
    ((select4 s1 s2 s3 s4).2 > 0.15 ∧
      (select4 s1 s2 s3 s4 = (.smile, s1) ∨ select4 s1 s2 s3 s4 = (.surprise, s2) ∨
       select4 s1 s2 s3 s4 = (.frown, s3) ∨ select4 s1 s2 s3 s4 = (.cheeky, s4))) := by
  dsimp only [select4]
  split_ifs <;>
    first
      | exact Or.inl rfl
      | (refine Or.inr ⟨?_, by simp⟩; dsimp only; simp_all; try linarith)

/-- The fold selects the first category, in iteration order, whose score is
maximal among the qualifying categories. -/
lemma select4_first (s : Expression → ℚ) (e1 : Expression)
    (hq1 : qualScore s e1)
    (hmax : ∀ e, qualScore s e → s e ≤ s e1)
    (hfirst : ∀ e, qualScore s e → s e = s e1 → orderIdx e1 ≤ orderIdx e) :
    (select4 (s .smile) (s .surprise) (s .frown) (s .cheeky)).1 = e1 := by
  have hmS := fun h => hmax .smile ((qualScore_smile s).mpr h)
  have hmU := fun h => hmax .surprise ((qualScore_surprise s).mpr h)
  have hmF := fun h => hmax .frown ((qualScore_frown s).mpr h)
  have hmC := fun h => hmax .cheeky ((qualScore_cheeky s).mpr h)
  have hfS := fun h he => hfirst .smile ((qualScore_smile s).mpr h) he
  have hfU := fun h he => hfirst .surprise ((qualScore_surprise s).mpr h) he
  have hfF := fun h he => hfirst .frown ((qualScore_frown s).mpr h) he
  cases e1 with
  | neutral => exact absurd hq1 (qualScore_neutral s)
  | smile =>
    rw [qualScore_smile] at hq1
    have nU : ¬(s .surprise > 0.28 ∧ s .surprise > s .smile) := by
      rintro ⟨h, h2⟩; exact absurd (hmU h) (not_le.mpr h2)
    have nF : ¬(s .frown > 0.2 ∧ s .frown > s .smile) := by
      rintro ⟨h, h2⟩; exact absurd (hmF h) (not_le.mpr h2)
    have nC : ¬(s .cheeky > 0.22 ∧ s .cheeky > s .smile) := by
      rintro ⟨h, h2⟩; exact absurd (hmC h) (not_le.mpr h2)
    have pS : s .smile > 0.25 ∧ s .smile > 0.15 := ⟨hq1, by linarith⟩
    dsimp only [select4]
    rw [if_pos pS]
    dsimp only
    rw [if_neg nU, if_neg nF, if_neg nC]
  | surprise =>
    rw [qualScore_surprise] at hq1
    have nF : ¬(s .frown > 0.2 ∧ s .frown > s .surprise) := by
      rintro ⟨h, h2⟩; exact absurd (hmF h) (not_le.mpr h2)
    have nC : ¬(s .cheeky > 0.22 ∧ s .cheeky > s .surprise) := by
      rintro ⟨h, h2⟩; exact absurd (hmC h) (not_le.mpr h2)
    have hltS : s .smile > 0.25 → s .smile < s .surprise := by
      intro h
      rcases lt_or_eq_of_le (hmS h) with h' | h'
      · exact h'
      · exact absurd (hfS h h') (by decide)
    dsimp only [select4]
    by_cases hS : s .smile > 0.25 ∧ s .smile > 0.15
    · rw [if_pos hS]
      dsimp only
      have pU : s .surprise > 0.28 ∧ s .surprise > s .smile := ⟨hq1, hltS hS.1⟩
      rw [if_pos pU]
      dsimp only
      rw [if_neg nF, if_neg nC]
    · rw [if_neg hS]
      dsimp only
      have pU : s .surprise > 0.28 ∧ s .surprise > 0.15 := ⟨hq1, by linarith⟩
      rw [if_pos pU]
      dsimp only
      rw [if_neg nF, if_neg nC]
  | frown =>
    rw [qualScore_frown] at hq1
    have nC : ¬(s .cheeky > 0.22 ∧ s .cheeky > s .frown) := by
      rintro ⟨h, h2⟩; exact absurd (hmC h) (not_le.mpr h2)
    have hltS : s .smile > 0.25 → s .smile < s .frown := by
      intro h
      rcases lt_or_eq_of_le (hmS h) with h' | h'
      · exact h'
      · exact absurd (hfS h h') (by decide)
    have hltU : s .surprise > 0.28 → s .surprise < s .frown := by
      intro h
      rcases lt_or_eq_of_le (hmU h) with h' | h'
      · exact h'
      · exact absurd (hfU h h') (by decide)
    dsimp only [select4]
    by_cases hS : s .smile > 0.25 ∧ s .smile > 0.15
    · rw [if_pos hS]
      dsimp only
      by_cases hU : s .surprise > 0.28 ∧ s .surprise > s .smile
      · rw [if_pos hU]
        dsimp only
        have pF : s .frown > 0.2 ∧ s .frown > s .surprise := ⟨hq1, hltU hU.1⟩
        rw [if_pos pF]
        dsimp only
        rw [if_neg nC]
      · rw [if_neg hU]
        dsimp only
        have pF : s .frown > 0.2 ∧ s .frown > s .smile := ⟨hq1, hltS hS.1⟩
        rw [if_pos pF]
        dsimp only
        rw [if_neg nC]
    · rw [if_neg hS]
      dsimp only
      by_cases hU : s .surprise > 0.28 ∧ s .surprise > 0.15
      · rw [if_pos hU]
        dsimp only
        have pF : s .frown > 0.2 ∧ s .frown > s .surprise := ⟨hq1, hltU hU.1⟩
        rw [if_pos pF]
        dsimp only
        rw [if_neg nC]
      · rw [if_neg hU]
        dsimp only
        have pF : s .frown > 0.2 ∧ s .frown > 0.15 := ⟨hq1, by linarith⟩
        rw [if_pos pF]
        dsimp only
        rw [if_neg nC]
  | cheeky =>
    rw [qualScore_cheeky] at hq1
    have hltS : s .smile > 0.25 → s .smile < s .cheeky := by
      intro h
      rcases lt_or_eq_of_le (hmS h) with h' | h'
      · exact h'
      · exact absurd (hfS h h') (by decide)
    have hltU : s .surprise > 0.28 → s .surprise < s .cheeky := by
      intro h
      rcases lt_or_eq_of_le (hmU h) with h' | h'
      · exact h'
      · exact absurd (hfU h h') (by decide)
    have hltF : s .frown > 0.2 → s .frown < s .cheeky := by
      intro h
      rcases lt_or_eq_of_le (hmF h) with h' | h'
      · exact h'
      · exact absurd (hfF h h') (by decide)
    dsimp only [select4]
    by_cases hS : s .smile > 0.25 ∧ s .smile > 0.15
    · rw [if_pos hS]
      dsimp only
      by_cases hU : s .surprise > 0.28 ∧ s .surprise > s .smile
      · rw [if_pos hU]
        dsimp only
        by_cases hF : s .frown > 0.2 ∧ s .frown > s .surprise
        · rw [if_pos hF]
          dsimp only
          have pC : s .cheeky > 0.22 ∧ s .cheeky > s .frown := ⟨hq1, hltF hF.1⟩
          rw [if_pos pC]
        · rw [if_neg hF]
          dsimp only
          have pC : s .cheeky > 0.22 ∧ s .cheeky > s .surprise := ⟨hq1, hltU hU.1⟩
          rw [if_pos pC]
      · rw [if_neg hU]
        dsimp only
        by_cases hF : s .frown > 0.2 ∧ s .frown > s .smile
        · rw [if_pos hF]
          dsimp only
          have pC : s .cheeky > 0.22 ∧ s .cheeky > s .frown := ⟨hq1, hltF hF.1⟩
          rw [if_pos pC]
        · rw [if_neg hF]
          dsimp only
          have pC : s .cheeky > 0.22 ∧ s .cheeky > s .smile := ⟨hq1, hltS hS.1⟩
          rw [if_pos pC]
    · rw [if_neg hS]
      dsimp only
      by_cases hU : s .surprise > 0.28 ∧ s .surprise > 0.15
      · rw [if_pos hU]
        dsimp only
        by_cases hF : s .frown > 0.2 ∧ s .frown > s .surprise
        · rw [if_pos hF]
          dsimp only
          have pC : s .cheeky > 0.22 ∧ s .cheeky > s .frown := ⟨hq1, hltF hF.1⟩
          rw [if_pos pC]
        · rw [if_neg hF]
          dsimp only
          have pC : s .cheeky > 0.22 ∧ s .cheeky > s .surprise := ⟨hq1, hltU hU.1⟩
          rw [if_pos pC]
      · rw [if_neg hU]
        dsimp only
        by_cases hF : s .frown > 0.2 ∧ s .frown > 0.15
        · rw [if_pos hF]
          dsimp only
          have pC : s .cheeky > 0.22 ∧ s .cheeky > s .frown := ⟨hq1, hltF hF.1⟩
          rw [if_pos pC]
        · rw [if_neg hF]
          dsimp only
          have pC : s .cheeky > 0.22 ∧ s .cheeky > 0.15 := ⟨hq1, by linarith⟩
          rw [if_pos pC]

/-! ### Concrete score evaluations -/

lemma cex_smile : scoreOf cexTie (baselineVec none) .smile = 3/10 := by
  simp [scoreOf, blendGet, baselineVec, cexTie, max_def]

lemma cex_surprise : scoreOf cexTie (baselineVec none) .surprise = 9/20 := by
  simp [scoreOf, blendGet, baselineVec, cexTie]
  norm_num

lemma cex_frown : scoreOf cexTie (baselineVec none) .frown = 3/10 := by
  simp [scoreOf, blendGet, baselineVec, cexTie, max_def]

lemma cex_cheeky : scoreOf cexTie (baselineVec none) .cheeky = 0 := by
  simp [scoreOf, blendGet, baselineVec, cexTie, max_def]

lemma cex_pick : pickExpression none (some cexTie) = .surprise := by
  have hp : pickExpression none (some cexTie) =
      (select4 (scoreOf cexTie (baselineVec none) .smile)
        (scoreOf cexTie (baselineVec none) .surprise)
        (scoreOf cexTie (baselineVec none) .frown)
        (scoreOf cexTie (baselineVec none) .cheeky)).1 := rfl
  rw [hp, cex_smile, cex_surprise, cex_frown, cex_cheeky]
  norm_num [select4]

lemma wit_smile : scoreOf witTie (baselineVec none) .smile = 2/5 := by
  simp [scoreOf, blendGet, baselineVec, witTie, max_def]

lemma wit_surprise : scoreOf witTie (baselineVec none) .surprise = 2/5 := by
  simp [scoreOf, blendGet, baselineVec, witTie]
  norm_num

lemma wit_frown : scoreOf witTie (baselineVec none) .frown = 0 := by
  simp [scoreOf, blendGet, baselineVec, witTie, max_def]

lemma wit_cheeky : scoreOf witTie (baselineVec none) .cheeky = 0 := by
  simp [scoreOf, blendGet, baselineVec, witTie, max_def]

lemma wit_pick : pickExpression none (some witTie) = .smile := by
  have hp : pickExpression none (some witTie) =
      (select4 (scoreOf witTie (baselineVec none) .smile)
        (scoreOf witTie (baselineVec none) .surprise)
        (scoreOf witTie (baselineVec none) .frown)
        (scoreOf witTie (baselineVec none) .cheeky)).1 := rfl
  rw [hp, wit_smile, wit_surprise, wit_frown, wit_cheeky]
  norm_num [select4]

/-! ### Claim theorems -/

/-- C2: for every current vector and baseline vector, the four per-category
scores are exactly smile = max(Δ mouthSmileLeft, Δ mouthSmileRight),
surprise = Δ jawOpen × 0.9 + Δ mouthPucker × 0.4,
frown = max(Δ mouthFrownLeft, Δ mouthFrownRight),
cheeky = max(Δ cheekPuffLeft, Δ cheekPuffRight) + Δ tongueOut,
with Δ the spec's delta (missing keys default to 0). -/
theorem claim_C2 (current baseline : Blend) :
    expressionScores current baseline =
      [(.smile, max (specDelta current baseline "mouthSmileLeft")
          (specDelta current baseline "mouthSmileRight")),
       (.surprise, specDelta current baseline "jawOpen" * 0.9
          + specDelta current baseline "mouthPucker" * 0.4),
       (.frown, max (specDelta current baseline "mouthFrownLeft")
          (specDelta current baseline "mouthFrownRight")),
       (.cheeky, max (specDelta current baseline "cheekPuffLeft")
          (specDelta current baseline "cheekPuffRight")
          + specDelta current baseline "tongueOut")] :=
  rfl

/-- C3: the per-category thresholds used by classification are the fixed
constants smile 0.25, surprise 0.28, frown 0.20, cheeky 0.22. -/
theorem claim_C3 :
    EMOTION_THRESHOLDS .smile = some 0.25 ∧
    EMOTION_THRESHOLDS .surprise = some 0.28 ∧
    EMOTION_THRESHOLDS .frown = some 0.20 ∧
    EMOTION_THRESHOLDS .cheeky = some 0.22 := by
  refine ⟨rfl, rfl, ?_, rfl⟩
  norm_num [EMOTION_THRESHOLDS]

/-- C4: for every baseline (calibrated or not), classifying a null current
vector returns neutral, independently of the baseline. -/
theorem claim_C4 (baseline : Option Blend) :
    pickExpression baseline none = .neutral ∧
    pickEmoji baseline none = EMOJI_SET .neutral :=
  ⟨rfl, rfl⟩

/-- C5: for every current vector V, classifying V with the uncalibrated
(absent) baseline yields the same category as classifying V with the
all-zero baseline vector. -/
theorem claim_C5 (V : Blend) :
    pickExpression none (some V) = pickExpression (some zeroVector) (some V) :=
  rfl

/-- C7: calibrating with a null vector leaves the stored baseline unchanged
(a no-op); calibrating with a non-null vector replaces the stored baseline
in full with that vector, with no merging of old and new contents. -/
theorem claim_C7 :
    (∀ baseline : Option Blend, calibrate baseline none = baseline) ∧
    (∀ (baseline : Option Blend) (v : Blend), calibrate baseline (some v) = some v) :=
  ⟨fun _ => rfl, fun _ _ => rfl⟩

/-- C8: for every vector V and starting baseline state, calling
`calibrate V` twice leaves the stored baseline — and hence every subsequent
classification — identical to calling it once. -/
theorem claim_C8 (baseline : Option Blend) (V : Blend) :
    calibrate (calibrate baseline (some V)) (some V) = calibrate baseline (some V) ∧
    ∀ current : Option Blend,
      pickEmoji (calibrate (calibrate baseline (some V)) (some V)) current =
        pickEmoji (calibrate baseline (some V)) current :=
  ⟨rfl, fun _ => rfl⟩

/-- C9: increasing `current["mouthSmileLeft"]` while holding every other
channel of the current vector and the whole baseline fixed never decreases
the computed smile score. -/
theorem claim_C9 (b blend1 blend2 : Blend) (v1 v2 : ℚ)
    (h1 : blend1 "mouthSmileLeft" = some v1)
    (h2 : blend2 "mouthSmileLeft" = some v2)
    (hle : v1 ≤ v2)
    (hagree : ∀ k, k ≠ "mouthSmileLeft" → blend1 k = blend2 k) :
    scoreOf blend1 b .smile ≤ scoreOf blend2 b .smile := by
  have hR : blend1 "mouthSmileRight" = blend2 "mouthSmileRight" :=
    hagree _ (by decide)
  simp only [scoreOf, blendGet, h1, h2, hR, Option.getD_some]
  exact max_le_max (by linarith) le_rfl

/-- Witness for C9 at `mouthSmileLeft` raised from 1/4 to 1/2. -/
theorem claim_C9_witness :
    witSmileLo "mouthSmileLeft" = some (1/4) ∧
    witSmileHi "mouthSmileLeft" = some (1/2) ∧
    (1/4 : ℚ) ≤ 1/2 ∧
    scoreOf witSmileLo emptyBlend .smile ≤ scoreOf witSmileHi emptyBlend .smile :=
  ⟨rfl, rfl, by norm_num,
   claim_C9 emptyBlend witSmileLo witSmileHi (1/4) (1/2) rfl rfl (by norm_num)
     (fun k hk => by simp [witSmileLo, witSmileHi, hk])⟩

/-- C1: for every current vector and baseline, the selected category equals
the spec's fold (start best = neutral, bestScore = 0.15; visit smile,
surprise, frown, cheeky in order; update iff score > threshold and score >
bestScore), and a non-neutral winner always scores strictly above 0.15. -/
theorem claim_C1 (blend : Blend) (baseline : Option Blend) :
    pickExpression baseline (some blend) =
      selectSpec (scoreOf blend (baselineVec baseline)) ∧
    (pickExpression baseline (some blend) ≠ .neutral →
      scoreOf blend (baselineVec baseline) (pickExpression baseline (some blend))
        > 0.15) := by
  constructor
  · show (selectBest (expressionScores blend (baselineVec baseline))).1 = _
    rw [expressionScores_eq, selectBest_eq_select4]
    dsimp only [select4, selectSpec, specThreshold]
    simp only [show (0.20 : ℚ) = 0.2 from by norm_num]
  · intro hne
    have hp : pickExpression baseline (some blend) =
        (select4 (scoreOf blend (baselineVec baseline) .smile)
          (scoreOf blend (baselineVec baseline) .surprise)
          (scoreOf blend (baselineVec baseline) .frown)
          (scoreOf blend (baselineVec baseline) .cheeky)).1 := rfl
    rcases select4_floor (scoreOf blend (baselineVec baseline) .smile)
        (scoreOf blend (baselineVec baseline) .surprise)
        (scoreOf blend (baselineVec baseline) .frown)
        (scoreOf blend (baselineVec baseline) .cheeky) with h | ⟨hgt, h | h | h | h⟩
    · exact absurd (by rw [hp, h]) hne
    · rw [hp, h]; rw [h] at hgt; simpa using hgt
    · rw [hp, h]; rw [h] at hgt; simpa using hgt
    · rw [hp, h]; rw [h] at hgt; simpa using hgt
    · rw [hp, h]; rw [h] at hgt; simpa using hgt

/-- Witness for C1: at `witTie` the winner is smile (not neutral) and its
score is above the 0.15 floor. -/
theorem claim_C1_witness :
    pickExpression none (some witTie) ≠ .neutral ∧
    scoreOf witTie (baselineVec none) (pickExpression none (some witTie)) > 0.15 :=
  ⟨by rw [wit_pick]; decide,
   (claim_C1 witTie none).2 (by rw [wit_pick]; decide)⟩

/-- C6 (amended): if a category qualifies, no qualifying category scores
strictly higher, and every qualifying category with the same score comes no
earlier in the order smile, surprise, frown, cheeky, then that category is
selected; in particular the earliest among equal maximal qualifying scores
wins. -/
theorem claim_C6 (blend : Blend) (baseline : Option Blend) (e1 e2 : Expression)
    (hq1 : qualifies blend (baselineVec baseline) e1)
    (hq2 : qualifies blend (baselineVec baseline) e2)
    (heq : scoreOf blend (baselineVec baseline) e1 =
      scoreOf blend (baselineVec baseline) e2)
    (horder : orderIdx e1 < orderIdx e2)
    (hmax : ∀ e, qualifies blend (baselineVec baseline) e →
      scoreOf blend (baselineVec baseline) e ≤ scoreOf blend (baselineVec baseline) e1)
    (hfirst : ∀ e, qualifies blend (baselineVec baseline) e →
      scoreOf blend (baselineVec baseline) e = scoreOf blend (baselineVec baseline) e1 →
      orderIdx e1 ≤ orderIdx e) :
    pickExpression baseline (some blend) = e1 := by
  have hp : pickExpression baseline (some blend) =
      (select4 (scoreOf blend (baselineVec baseline) .smile)
        (scoreOf blend (baselineVec baseline) .surprise)
        (scoreOf blend (baselineVec baseline) .frown)
        (scoreOf blend (baselineVec baseline) .cheeky)).1 := rfl
  rw [hp]
  exact select4_first _ e1 hq1 hmax hfirst

/-- Counterexample to C6 as stated: at `cexTie` the smile and frown scores
are exactly equal and both qualifying, yet the selected category is
surprise (whose score is strictly higher), not the earlier tied category. -/
theorem claim_C6_counterexample :
    qualifies cexTie (baselineVec none) .smile ∧
    qualifies cexTie (baselineVec none) .frown ∧
    scoreOf cexTie (baselineVec none) .smile = scoreOf cexTie (baselineVec none) .frown ∧
    orderIdx .smile < orderIdx .frown ∧
    pickExpression none (some cexTie) = .surprise ∧
    pickExpression none (some cexTie) ≠ .smile := by
  refine ⟨(qualScore_smile _).mpr ?_, (qualScore_frown _).mpr ?_, ?_, by decide,
    cex_pick, by rw [cex_pick]; decide⟩
  · rw [cex_smile]; norm_num
  · rw [cex_frown]; norm_num
  · rw [cex_smile, cex_frown]

/-- Witness for C6 (amended), the spec's own concrete tie: at `witTie` the
smile and surprise scores are both exactly 2/5, both qualify, no qualifying
score is higher, and smile — first in order — is selected. -/
theorem claim_C6_witness :
    qualifies witTie (baselineVec none) .smile ∧
    qualifies witTie (baselineVec none) .surprise ∧
    scoreOf witTie (baselineVec none) .smile = scoreOf witTie (baselineVec none) .surprise ∧
    orderIdx .smile < orderIdx .surprise ∧
    pickExpression none (some witTie) = .smile := by
  have hq1 : qualifies witTie (baselineVec none) .smile :=
    (qualScore_smile _).mpr (by rw [wit_smile]; norm_num)
  have hq2 : qualifies witTie (baselineVec none) .surprise :=
    (qualScore_surprise _).mpr (by rw [wit_surprise]; norm_num)
  have heq : scoreOf witTie (baselineVec none) .smile =
      scoreOf witTie (baselineVec none) .surprise := by
    rw [wit_smile, wit_surprise]
  have hmax : ∀ e, qualifies witTie (baselineVec none) e →
      scoreOf witTie (baselineVec none) e ≤ scoreOf witTie (baselineVec none) .smile := by
    intro e he
    cases e with
    | neutral => exact absurd he (qualScore_neutral _)
    | smile => exact le_rfl
    | surprise => rw [wit_surprise, wit_smile]
    | frown => exact absurd ((qualScore_frown _).mp he) (by rw [wit_frown]; norm_num)
    | cheeky => exact absurd ((qualScore_cheeky _).mp he) (by rw [wit_cheeky]; norm_num)
  have hfirst : ∀ e, qualifies witTie (baselineVec none) e →
      scoreOf witTie (baselineVec none) e = scoreOf witTie (baselineVec none) .smile →
      orderIdx .smile ≤ orderIdx e :=
    fun e _ _ => Nat.zero_le _
  exact ⟨hq1, hq2, heq, by decide,
    claim_C6 witTie none .smile .surprise hq1 hq2 heq (by decide) hmax hfirst⟩

/-- C10: the empty mapping produced by `blendMap` when no face is detected
classifies as neutral for every baseline with all-non-negative channel
values: every delta is ≤ 0, so no score can clear its positive threshold. -/
theorem claim_C10 (baseline : Option Blend)
    (hnn : ∀ k, 0 ≤ blendGet (baselineVec baseline) k) :
    blendMap none = emptyBlend ∧
    pickExpression baseline (some (blendMap none)) = .neutral := by
  refine ⟨rfl, ?_⟩
  have hkey : ∀ key, blendGet (blendMap none) key - blendGet (baselineVec baseline) key ≤ 0 := by
    intro key
    have h0 : blendGet (blendMap none) key = 0 := rfl
    have h1 := hnn key
    rw [h0]
    linarith
  have hs1 : scoreOf (blendMap none) (baselineVec baseline) .smile ≤ 0 :=
    max_le (hkey _) (hkey _)
  have hs2 : scoreOf (blendMap none) (baselineVec baseline) .surprise ≤ 0 := by
    simp only [scoreOf]
    linarith [hkey "jawOpen", hkey "mouthPucker"]
  have hs3 : scoreOf (blendMap none) (baselineVec baseline) .frown ≤ 0 :=
    max_le (hkey _) (hkey _)
  have hs4 : scoreOf (blendMap none) (baselineVec baseline) .cheeky ≤ 0 := by
    simp only [scoreOf]
    linarith [max_le (hkey "cheekPuffLeft") (hkey "cheekPuffRight"), hkey "tongueOut"]
  have hp : pickExpression baseline (some (blendMap none)) =
      (select4 (scoreOf (blendMap none) (baselineVec baseline) .smile)
        (scoreOf (blendMap none) (baselineVec baseline) .surprise)
        (scoreOf (blendMap none) (baselineVec baseline) .frown)
        (scoreOf (blendMap none) (baselineVec baseline) .cheeky)).1 := rfl
  rw [hp, select4_all_low _ _ _ _ hs1 hs2 hs3 hs4]

/-- Witness for C10 with the non-negative baseline `witBaseNN`. -/
theorem claim_C10_witness :
    (∀ k, 0 ≤ blendGet (baselineVec (some witBaseNN)) k) ∧
    (blendMap none = emptyBlend ∧
      pickExpression (some witBaseNN) (some (blendMap none)) = .neutral) := by
  have hnn : ∀ k, 0 ≤ blendGet (baselineVec (some witBaseNN)) k := by
    intro k
    simp only [blendGet, baselineVec, witBaseNN, Option.getD_some]
    split_ifs <;> norm_num
  exact ⟨hnn, claim_C10 (some witBaseNN) hnn⟩

end EmojiMirror
